import Mathlib

set_option linter.unusedVariables false

/- Shallow embedding of the CloudLaunch_Go native screenshot tools
   (src/native/dxgi_screenshot/DxgiScreenshot.cpp and
   src/native/wgc_screenshot/WgcScreenshot.cpp).

   Pure computations (argument parsing, monitor selection, crop clamping,
   the row-by-row pixel copy) are translated directly into Lean functions.
   Effectful Win32/D3D11/WIC calls are modelled by explicit oracles giving
   each call's outcome; the control flow of `main` (DXGI) and
   `CaptureWindowToPngFileEx` / `SavePngFromTexture` (WGC) is translated
   into functions from those oracles to an exit result, a trace of the
   resource events the source performs, and a file-system state tracking
   the destination file and the temporary file used by `TempFileGuard`. -/

/-- Win32 `S_OK` success code, HRESULTs being modelled as signed 32-bit values. -/
def S_OK : Int := 0

/-- Win32 `E_INVALIDARG`: the 32-bit pattern 0x80070057 read as a signed int. -/
def E_INVALIDARG : Int := 0x80070057 - 2^32

/-- Win32 `E_FAIL`: the 32-bit pattern 0x80004005 read as a signed int. -/
def E_FAIL : Int := 0x80004005 - 2^32

/-- Win32 `HRESULT_FROM_WIN32` macro: zero stays zero, a nonzero error code is
tagged into the 0x8007xxxx range, which is negative as a signed 32-bit int. -/
def HRESULT_FROM_WIN32 (c : Nat) : Int :=
  if c = 0 then 0 else (0x80070000 + (c % 0x10000) : Int) - 2^32

/-- Win32 `WAIT_TIMEOUT` error code (0x102). -/
def WAIT_TIMEOUT_CODE : Nat := 0x102

/-- Win32 `FAILED(hr)` macro: an HRESULT signals failure iff it is negative. -/
def FAILED (hr : Int) : Bool := decide (hr < 0)

/-- Win32 `RECT`: four signed 32-bit coordinates (left, top, right, bottom). -/
structure RECT where
  left : Int
  top : Int
  right : Int
  bottom : Int
deriving DecidableEq

/-- The `static_cast<int>` of a `UINT` value `n < 2^32`: values below 2^31 are
kept, larger ones wrap to their negative two's-complement reading. -/
def intOfUINT (n : Nat) : Int :=
  if n % 2^32 < 2^31 then (n % 2^32 : Int) else (n % 2^32 : Int) - 2^32

/-- The `static_cast<UINT>` of a signed value: two's-complement wrap into
[0, 2^32). -/
def uintOfInt (i : Int) : Nat := (i % 2^32).toNat

/-- Options (DxgiScreenshot.cpp): the parsed command line of the monitor
capture CLI, with the source's defaults. -/
structure Options where
  outPath : String
  cropX : Int
  cropY : Int
  cropW : Int
  cropH : Int
  monitorIndex : Int
  format : String
deriving DecidableEq

/-- Default-constructed `Options` (DxgiScreenshot.cpp lines 18-26). -/
def defaultOptions : Options :=
  { outPath := "", cropX := 0, cropY := 0, cropW := 0, cropH := 0,
    monitorIndex := -1, format := "png" }

/-- The whitespace characters skipped by `strtol`. -/
def isSpaceChar (c : Char) : Bool :=
  c = ' ' || c = '\t' || c = '\n' || c = '\x0b' || c = '\x0c' || c = '\r'

/-- Leading-whitespace skipping performed by `strtol`. -/
def stripSpaces : List Char → List Char
  | c :: cs => if isSpaceChar c then stripSpaces cs else c :: cs
  | [] => []

/-- Consume a maximal run of decimal digits, base-10 accumulating their value;
also returns how many digits were consumed. -/
def parseDigits : List Char → Nat → Nat → Nat × Nat
  | c :: cs, acc, k =>
      if c.isDigit then parseDigits cs (acc * 10 + (c.toNat - 48)) (k + 1) else (acc, k)
  | [], acc, k => (acc, k)

/-- `strtol` range clamping: Windows `long` is 32 bits, so out-of-range values
clamp to LONG_MIN / LONG_MAX (the subsequent `static_cast<int>` is then the
identity). -/
def strtolClamp (v : Int) : Int := max (-(2^31)) (min v (2^31 - 1))

/-- ParseInt (DxgiScreenshot.cpp lines 48-59): `strtol` in base 10 — skip
whitespace, optional sign, then digits; fails (strtol's `end == value`) iff no
digit was consumed. -/
def ParseInt (s : String) : Option Int :=
  let cs := stripSpaces s.data
  match cs with
  | '-' :: rest =>
      let (v, k) := parseDigits rest 0 0
      if k = 0 then none else some (strtolClamp (-(v : Int)))
  | '+' :: rest =>
      let (v, k) := parseDigits rest 0 0
      if k = 0 then none else some (strtolClamp (v : Int))
  | _ =>
      let (v, k) := parseDigits cs 0 0
      if k = 0 then none else some (strtolClamp (v : Int))

/-- ToWide (DxgiScreenshot.cpp lines 33-46): UTF-8 to UTF-16 conversion, which
is semantically the identity on the abstract strings of this embedding. -/
def ToWide (s : String) : String := s

/-- The argument loop of ParseArgs (DxgiScreenshot.cpp lines 65-92), over the
arguments after the program name.  A recognised flag consumes its operands;
a flag missing operands, or any unrecognised token, aborts parsing. -/
def parseArgsLoop : List String → Options → Option Options
  | [], o => some o
  | "--out" :: v :: rest, o => parseArgsLoop rest { o with outPath := ToWide v }
  | "--crop" :: xs :: ys :: ws :: hs :: rest, o =>
      match ParseInt xs, ParseInt ys, ParseInt ws, ParseInt hs with
      | some xv, some yv, some wv, some hv =>
          parseArgsLoop rest { o with cropX := xv, cropY := yv, cropW := wv, cropH := hv }
      | _, _, _, _ => none
  | "--monitor" :: v :: rest, o =>
      match ParseInt v with
      | some mv => parseArgsLoop rest { o with monitorIndex := mv }
      | none => none
  | "--format" :: v :: rest, o => parseArgsLoop rest { o with format := ToWide v }
  | _ :: _, _ => none

/-- Lower-casing via `towlower` applied character-wise
(DxgiScreenshot.cpp line 98). -/
def toLowerWide (s : String) : String := String.mk (s.data.map Char.toLower)

/-- ParseArgs (DxgiScreenshot.cpp lines 61-105): the argument loop followed by
the final validation — the output path must be nonempty, the crop width and
height must be positive, and a nonempty format must lower-case to "png". -/
def ParseArgs (argv : List String) : Option Options :=
  match parseArgsLoop argv defaultOptions with
  | none => none
  | some o =>
      if o.outPath = "" ∨ o.cropW ≤ 0 ∨ o.cropH ≤ 0 then none
      else if o.format ≠ "" ∧ toLowerWide o.format ≠ "png" then none
      else some o

/-- OutputItem (DxgiScreenshot.cpp lines 122-125): one enumerated DXGI output,
of which only the desktop-coordinates rectangle matters here. -/
structure OutputItem where
  desc : RECT
deriving DecidableEq

/-- Containment test of FindOutputIndex (DxgiScreenshot.cpp lines 158-159):
the point lies in [left, right) × [top, bottom). -/
def rectContains (r : RECT) (px py : Int) : Bool :=
  decide (r.left ≤ px) && decide (px < r.right) && decide (r.top ≤ py) && decide (py < r.bottom)

/-- The scan loop of FindOutputIndex (DxgiScreenshot.cpp lines 156-162): the
index of the first output whose desktop rectangle contains the point. -/
def findOutputLoop (cx cy : Int) : List OutputItem → Nat → Option Nat
  | [], _ => none
  | o :: rest, i => if rectContains o.desc cx cy then some i else findOutputLoop cx cy rest (i + 1)

/-- FindOutputIndex (DxgiScreenshot.cpp lines 150-164): -1 on an empty list;
otherwise the first output containing the center `(x + w/2, y + h/2)` of the
caller rectangle (C++ truncating division), falling back to index 0. -/
def FindOutputIndex (outputs : List OutputItem) (x y w h : Int) : Int :=
  if outputs.isEmpty then -1
  else
    let centerX := x + Int.tdiv w 2
    let centerY := y + Int.tdiv h 2
    match findOutputLoop centerX centerY outputs 0 with
    | some i => (i : Int)
    | none => 0

/-- The monitor-index resolution of main (DxgiScreenshot.cpp lines 277-281):
an explicit in-range index is used as-is, otherwise FindOutputIndex decides. -/
def SelectOutputIndex (outputs : List OutputItem) (monitorIndex x y w h : Int) : Int :=
  if monitorIndex < 0 ∨ (outputs.length : Int) ≤ monitorIndex then
    FindOutputIndex outputs x y w h
  else monitorIndex

/-- CropRectForOutput (DxgiScreenshot.cpp lines 166-189): translate the caller
rectangle into monitor-relative coordinates, clamp each edge against the
monitor bounds, and fail iff the clamped rectangle is empty. -/
def CropRectForOutput (desktop : RECT) (x y w h : Int) : Option RECT :=
  let crop0 : RECT :=
    { left := x - desktop.left, top := y - desktop.top,
      right := x - desktop.left + w, bottom := y - desktop.top + h }
  let bounds : RECT :=
    { left := 0, top := 0,
      right := desktop.right - desktop.left, bottom := desktop.bottom - desktop.top }
  let crop : RECT :=
    { left := max crop0.left bounds.left, top := max crop0.top bounds.top,
      right := min crop0.right bounds.right, bottom := min crop0.bottom bounds.bottom }
  if crop.right ≤ crop.left ∨ crop.bottom ≤ crop.top then none else some crop

/-- A byte-addressed `memcpy` over functional byte stores: copy `n` bytes from
`src` at `srcOff` over `dest` at `destOff`. -/
def memcpyBytes (dest : Nat → Nat) (destOff : Nat) (src : Nat → Nat) (srcOff n : Nat) :
    Nat → Nat :=
  fun i => if destOff ≤ i ∧ i < destOff + n then src (srcOff + (i - destOff)) else dest i

/-- The row-by-row crop copy loop shared verbatim by both strategies
(DxgiScreenshot.cpp lines 372-376 and WgcScreenshot.cpp lines 182-188): after
`rows` iterations, each finished output row `y` received `cropW * 4` bytes
from source offset `(cropTop + y) * rowPitch + cropLeft * 4` at destination
offset `y * cropW * 4`. -/
def cropCopyLoop (src : Nat → Nat) (rowPitch cropLeft cropTop cropW : Nat) :
    Nat → (Nat → Nat) → Nat → Nat
  | 0, pixels => pixels
  | y + 1, pixels =>
      memcpyBytes (cropCopyLoop src rowPitch cropLeft cropTop cropW y pixels)
        (y * (cropW * 4)) src ((cropTop + y) * rowPitch + cropLeft * 4) (cropW * 4)

/-- The packed destination buffer produced by the crop loop, starting from the
zero-initialised `std::vector<uint8_t>`. -/
def cropPixels (src : Nat → Nat) (rowPitch cropLeft cropTop cropW cropH : Nat) : Nat → Nat :=
  cropCopyLoop src rowPitch cropLeft cropTop cropW cropH (fun _ => 0)

/-- Size of the destination vector allocated for the crop
(`cropWidth * cropHeight * 4`, DxgiScreenshot.cpp line 370 and
WgcScreenshot.cpp line 179). -/
def cropBufSize (cropW cropH : Nat) : Nat := cropW * cropH * 4

/-- Observable content of a file slot: a pre-existing file, a partially
written encode in progress, or a completed PNG of the given pixel size. -/
inductive FileData
  | old
  | truncatedData
  | complete (w h : Nat)
deriving DecidableEq

/-- File-system state relevant to one invocation: the destination path's
content and the content of the `TempFileGuard` temporary path. -/
structure FsState where
  dest : Option FileData
  temp : Option FileData
deriving DecidableEq

/-- The temporary path used by `TempFileGuard`
(WgcScreenshot.cpp line 147): the destination name plus the ".tmp" suffix. -/
def tempPathOf (path : String) : String := path ++ ".tmp"

/-- Resource events performed by the capture pipelines, in program order. -/
inductive Ev
  | enumerateOutputs
  | createDevice
  | deviceBridge
  | createForWindow
  | startCapture
  | waitFrame (timeoutMs : Nat)
  | duplicateOutput
  | acquireFrame (timeoutMs : Nat)
  | releaseFrame
  | copyResource
  | mapStaging
  | unmapStaging
deriving DecidableEq

/-- Outcome of `IDXGIOutputDuplication::AcquireNextFrame`
(DxgiScreenshot.cpp lines 322-332). -/
inductive AcquireRes
  | timeout
  | failed
  | ok
deriving DecidableEq

/-- Outcomes of the WIC encoding calls plus the final `MoveFileExW`, one
HRESULT per call site. -/
structure WicOracle where
  coCreateHr : Int
  createStreamHr : Int
  initFromFilenameHr : Int
  createEncoderHr : Int
  encoderInitHr : Int
  createNewFrameHr : Int
  frameInitHr : Int
  setSizeHr : Int
  setPixelFormatHr : Int
  writePixelsHr : Int
  frameCommitHr : Int
  encoderCommitHr : Int
  moveFileHr : Int
deriving DecidableEq

/-- SavePng (DxgiScreenshot.cpp lines 191-238) as a file-system transformer:
the WIC stream is initialised DIRECTLY on the destination path (line 201),
creating / truncating the destination; every later failure returns `false`
leaving whatever was written so far visible at the destination; success ends
with a complete PNG there.  No temporary file is involved. -/
def SavePng (o : WicOracle) (width height : Nat) (fs : FsState) : Bool × FsState :=
  if FAILED o.coCreateHr then (false, fs)
  else if FAILED o.createStreamHr then (false, fs)
  else if FAILED o.initFromFilenameHr then (false, fs)
  else
    let fs1 : FsState := { fs with dest := some .truncatedData }
    if FAILED o.createEncoderHr then (false, fs1)
    else if FAILED o.encoderInitHr then (false, fs1)
    else if FAILED o.createNewFrameHr then (false, fs1)
    else if FAILED o.frameInitHr then (false, fs1)
    else if FAILED o.setSizeHr then (false, fs1)
    else if FAILED o.setPixelFormatHr then (false, fs1)
    else if FAILED o.writePixelsHr then (false, fs1)
    else if FAILED o.frameCommitHr then (false, fs1)
    else if FAILED o.encoderCommitHr then (false, fs1)
    else (true, { fs with dest := some (.complete width height) })

/-- Environment oracle for the DXGI monitor-capture `main`: the outcome of
each effectful platform call, in source order. -/
structure DxgiEnv where
  coInitOk : Bool
  createFactoryOk : Bool
  outputs : List OutputItem
  createDeviceOk : Bool
  duplicateOutputOk : Bool
  acquireResult : AcquireRes
  frameAsOk : Bool
  createStagingOk : Bool
  mapOk : Bool
  wic : WicOracle
deriving DecidableEq

/-- main (DxgiScreenshot.cpp lines 242-389): parse, enumerate, select the
output, resolve the crop, create the device, duplicate, acquire one frame
with a 500 ms bound, copy to staging, release the frame, map, extract, unmap
and encode.  Returns the process exit code, the trace of resource events,
and the final file-system state. -/
def dxgiMain (env : DxgiEnv) (argv : List String) (fs : FsState) :
    Nat × List Ev × FsState :=
  match ParseArgs argv with
  | none => (2, [], fs)
  | some options =>
    if !env.coInitOk then (1, [], fs)
    else if !env.createFactoryOk then (1, [], fs)
    else if env.outputs.isEmpty then (1, [.enumerateOutputs], fs)
    else
      let outputIndex := SelectOutputIndex env.outputs options.monitorIndex
        options.cropX options.cropY options.cropW options.cropH
      if outputIndex < 0 ∨ (env.outputs.length : Int) ≤ outputIndex then
        (1, [.enumerateOutputs], fs)
      else
        let selected := env.outputs.getD outputIndex.toNat ⟨⟨0, 0, 0, 0⟩⟩
        match CropRectForOutput selected.desc options.cropX options.cropY
            options.cropW options.cropH with
        | none => (1, [.enumerateOutputs], fs)
        | some cropRect =>
          if !env.createDeviceOk then (1, [.enumerateOutputs, .createDevice], fs)
          else if !env.duplicateOutputOk then
            (1, [.enumerateOutputs, .createDevice, .duplicateOutput], fs)
          else
            match env.acquireResult with
            | .timeout =>
                (1, [.enumerateOutputs, .createDevice, .duplicateOutput,
                     .acquireFrame 500], fs)
            | .failed =>
                (1, [.enumerateOutputs, .createDevice, .duplicateOutput,
                     .acquireFrame 500], fs)
            | .ok =>
              if !env.frameAsOk then
                (1, [.enumerateOutputs, .createDevice, .duplicateOutput,
                     .acquireFrame 500, .releaseFrame], fs)
              else if !env.createStagingOk then
                (1, [.enumerateOutputs, .createDevice, .duplicateOutput,
                     .acquireFrame 500, .releaseFrame], fs)
              else if !env.mapOk then
                (1, [.enumerateOutputs, .createDevice, .duplicateOutput,
                     .acquireFrame 500, .copyResource, .releaseFrame], fs)
              else
                let cropWidth := cropRect.right - cropRect.left
                let cropHeight := cropRect.bottom - cropRect.top
                match SavePng env.wic cropWidth.toNat cropHeight.toNat fs with
                | (false, fs2) =>
                    (1, [.enumerateOutputs, .createDevice, .duplicateOutput,
                         .acquireFrame 500, .copyResource, .releaseFrame,
                         .mapStaging, .unmapStaging], fs2)
                | (true, fs2) =>
                    (0, [.enumerateOutputs, .createDevice, .duplicateOutput,
                         .acquireFrame 500, .copyResource, .releaseFrame,
                         .mapStaging, .unmapStaging], fs2)

/-- CropRect (WgcScreenshot.cpp lines 23-28): unsigned crop rectangle. -/
structure CropRect where
  x : Nat
  y : Nat
  width : Nat
  height : Nat
deriving DecidableEq

/-- Results of the window-geometry queries consumed by TryGetClientCropRect:
`GetWindowRect`, the `DwmGetWindowAttribute` extended-frame-bounds fallback,
`GetClientRect` and `ClientToScreen`. -/
structure ClientQuery where
  getWindowRectOk : Bool
  windowRect : RECT
  dwmOk : Bool
  dwmRect : RECT
  getClientRectOk : Bool
  clientRect : RECT
  clientToScreenOk : Bool
  screenTopLeftX : Int
  screenTopLeftY : Int
deriving DecidableEq

/-- The clamping block of TryGetClientCropRect (WgcScreenshot.cpp lines
246-272), on the already-computed signed offsets and extents: reject a
degenerate client rectangle, fold a negative origin into the extent and zero
the origin, shrink the extent to the `maxW × maxH` texture bound, and reject
again if the clamped extent is empty. -/
def clampClientRect (cropX cropY cropW cropH maxW maxH : Int) :
    Option (Int × Int × Int × Int) :=
  if cropW ≤ 0 ∨ cropH ≤ 0 then none
  else
    let cropW1 := if cropX < 0 then cropW + cropX else cropW
    let cropX1 := if cropX < 0 then 0 else cropX
    let cropH1 := if cropY < 0 then cropH + cropY else cropH
    let cropY1 := if cropY < 0 then 0 else cropY
    let cropW2 := if maxW < cropX1 + cropW1 then maxW - cropX1 else cropW1
    let cropH2 := if maxH < cropY1 + cropH1 then maxH - cropY1 else cropH1
    if cropW2 ≤ 0 ∨ cropH2 ≤ 0 then none
    else some (cropX1, cropY1, cropW2, cropH2)

/-- TryGetClientCropRect (WgcScreenshot.cpp lines 227-277): compute the client
area's offset inside the captured frame (window rectangle primary, DWM
extended-frame-bounds fallback), clamp it to the texture extent
`descW × descH` via `clampClientRect`, and fail on any unavailable query or
degenerate rectangle; the final `static_cast<UINT>` casts build the crop. -/
def TryGetClientCropRect (q : ClientQuery) (descW descH : Nat) : Option CropRect :=
  match (if q.getWindowRectOk then some q.windowRect
         else if q.dwmOk then some q.dwmRect else none) with
  | none => none
  | some frame =>
    if !q.getClientRectOk then none
    else if !q.clientToScreenOk then none
    else
      match clampClientRect (q.screenTopLeftX - frame.left)
          (q.screenTopLeftY - frame.top)
          (q.clientRect.right - q.clientRect.left)
          (q.clientRect.bottom - q.clientRect.top)
          (intOfUINT descW) (intOfUINT descH) with
      | none => none
      | some (cx, cy, cw, ch) =>
          some ⟨uintOfInt cx, uintOfInt cy, uintOfInt cw, uintOfInt ch⟩

/-- Outcomes of the effectful calls made inside SavePngFromTexture besides the
WIC ladder: staging-texture creation and the CPU map. -/
structure SaveOracle where
  createStagingHr : Int
  mapHr : Int
  wic : WicOracle
deriving DecidableEq

/-- The WIC encoding ladder of SavePngFromTexture (WgcScreenshot.cpp lines
128-224) as a file-system transformer: the calls in source order, the
`TempFileGuard` temporary created by `InitializeFromFilename` on the
temporary path, and the final `MoveFileExW` over the destination; on every
failure return after guard construction the guard destructor deletes the
temporary.  `outputW × outputH` are the encoded dimensions. -/
def wicEncodeToTemp (w : WicOracle) (outputW outputH : Nat) (fs : FsState) :
    Int × FsState :=
  if FAILED w.coCreateHr then (w.coCreateHr, fs)
  else if FAILED w.createEncoderHr then (w.createEncoderHr, fs)
  else if FAILED w.createStreamHr then (w.createStreamHr, fs)
  else if FAILED w.initFromFilenameHr then
    (w.initFromFilenameHr, { fs with temp := none })
  else
    let fs1 : FsState := { fs with temp := some .truncatedData }
    if FAILED w.encoderInitHr then (w.encoderInitHr, { fs1 with temp := none })
    else if FAILED w.createNewFrameHr then (w.createNewFrameHr, { fs1 with temp := none })
    else if FAILED w.frameInitHr then (w.frameInitHr, { fs1 with temp := none })
    else if FAILED w.setSizeHr then (w.setSizeHr, { fs1 with temp := none })
    else if FAILED w.setPixelFormatHr then (w.setPixelFormatHr, { fs1 with temp := none })
    else if FAILED w.writePixelsHr then (w.writePixelsHr, { fs1 with temp := none })
    else if FAILED w.frameCommitHr then (w.frameCommitHr, { fs1 with temp := none })
    else if FAILED w.encoderCommitHr then (w.encoderCommitHr, { fs1 with temp := none })
    else if FAILED w.moveFileHr then (w.moveFileHr, { fs1 with temp := none })
    else (S_OK, { dest := some (.complete outputW outputH), temp := none })

/-- SavePngFromTexture (WgcScreenshot.cpp lines 88-225): copy the texture to a
staging surface, map it (the `MapScope` guard unmaps on every later return,
so every post-map exit path carries the unmap event), and run the WIC encode
into the `TempFileGuard` temporary, which is moved over the destination only
after every step succeeded.  Output dimensions are the crop's when a nonempty
crop is supplied, else the full texture's `descW × descH` (the pure
dimension selection of source lines 169-190 is hoisted ahead of the WIC
ladder, which it does not interact with).  Returns the HRESULT, the event
trace, and the final file-system state. -/
def SavePngFromTexture (o : SaveOracle) (descW descH : Nat) (pathEmpty : Bool)
    (cropRect : Option CropRect) (fs : FsState) : Int × List Ev × FsState :=
  if pathEmpty then (E_INVALIDARG, [], fs)
  else if FAILED o.createStagingHr then (o.createStagingHr, [], fs)
  else if FAILED o.mapHr then (o.mapHr, [.copyResource], fs)
  else
    let outputW := match cropRect with
      | some c => if 0 < c.width ∧ 0 < c.height then c.width else descW
      | none => descW
    let outputH := match cropRect with
      | some c => if 0 < c.width ∧ 0 < c.height then c.height else descH
      | none => descH
    let enc := wicEncodeToTemp o.wic outputW outputH fs
    (enc.1, [.copyResource, .mapStaging, .unmapStaging], enc.2)

/-- Environment oracle for the WGC window capture: the outcome of each
effectful platform call of CaptureWindowToPngFileEx, in source order, plus
the texture description and the geometry-query results. -/
structure WgcEnv where
  createD3DDeviceHr : Int
  deviceBridgeHr : Int
  createForWindowHr : Int
  sizeW : Int
  sizeH : Int
  createEventOk : Bool
  lastError : Nat
  frameArrives : Bool
  capturedNonNull : Bool
  queryInterfaceHr : Int
  getInterfaceHr : Int
  descW : Nat
  descH : Nat
  clientQuery : ClientQuery
  save : SaveOracle
deriving DecidableEq

/-- CaptureWindowToPngFileEx (WgcScreenshot.cpp lines 279-407): reject a null
window handle or path, create the D3D device, bridge it into the compositor
API, create the capture item for the window (no enumeration), reject a
non-positive item size, start the one-shot capture with a single-buffer frame
pool, wait on the frame event with a 2000 ms bound, fetch the texture, and
hand over to SavePngFromTexture with the client-area crop when requested and
available.  `hwndNull` models a null HWND, `path` the out path argument. -/
def CaptureWindowToPngFileEx (env : WgcEnv) (hwndNull : Bool) (path : Option String)
    (clientOnly : Bool) (fs : FsState) : Int × List Ev × FsState :=
  if hwndNull ∨ path = none then (E_INVALIDARG, [], fs)
  else if FAILED env.createD3DDeviceHr then (env.createD3DDeviceHr, [.createDevice], fs)
  else if FAILED env.deviceBridgeHr then
    (env.deviceBridgeHr, [.createDevice, .deviceBridge], fs)
  else if FAILED env.createForWindowHr then
    (env.createForWindowHr, [.createDevice, .deviceBridge, .createForWindow], fs)
  else if env.sizeW ≤ 0 ∨ env.sizeH ≤ 0 then
    (E_FAIL, [.createDevice, .deviceBridge, .createForWindow], fs)
  else if !env.createEventOk then
    (HRESULT_FROM_WIN32 env.lastError, [.createDevice, .deviceBridge, .createForWindow], fs)
  else if !env.frameArrives then
    (HRESULT_FROM_WIN32 WAIT_TIMEOUT_CODE,
     [.createDevice, .deviceBridge, .createForWindow, .startCapture, .waitFrame 2000], fs)
  else if !env.capturedNonNull then
    (E_FAIL,
     [.createDevice, .deviceBridge, .createForWindow, .startCapture, .waitFrame 2000], fs)
  else if FAILED env.queryInterfaceHr then
    (env.queryInterfaceHr,
     [.createDevice, .deviceBridge, .createForWindow, .startCapture, .waitFrame 2000], fs)
  else if FAILED env.getInterfaceHr then
    (env.getInterfaceHr,
     [.createDevice, .deviceBridge, .createForWindow, .startCapture, .waitFrame 2000], fs)
  else
    let cropPtr : Option CropRect :=
      if clientOnly then TryGetClientCropRect env.clientQuery env.descW env.descH else none
    let saved := SavePngFromTexture env.save env.descW env.descH
      (path = some "") cropPtr fs
    (saved.1,
     [.createDevice, .deviceBridge, .createForWindow, .startCapture, .waitFrame 2000]
       ++ saved.2.1,
     saved.2.2)

lemma findOutputLoop_spec (cx cy : Int) :
    ∀ (l : List OutputItem) (i j : Nat), findOutputLoop cx cy l i = some j →
      ∃ k, ∃ hk : k < l.length, j = i + k ∧
        rectContains (l.get ⟨k, hk⟩).desc cx cy = true ∧
        ∀ m, ∀ hm : m < l.length, m < k → rectContains (l.get ⟨m, hm⟩).desc cx cy = false
  | [], i, j => by simp [findOutputLoop]
  | o :: rest, i, j => by
      intro h
      by_cases hc : rectContains o.desc cx cy = true
      · refine ⟨0, by simp, ?_, by simpa using hc, ?_⟩
        · simp [findOutputLoop, hc] at h
          omega
        · intro m hm hmk
          omega
      · have h' : findOutputLoop cx cy rest (i + 1) = some j := by
          simpa [findOutputLoop, hc] using h
        obtain ⟨k, hk, hj, hget, hbefore⟩ := findOutputLoop_spec cx cy rest (i + 1) j h'
        refine ⟨k + 1, by simpa using Nat.succ_lt_succ hk, by omega, by simpa using hget, ?_⟩
        intro m hm hmk
        cases m with
        | zero => simpa using hc
        | succ m' =>
            have hm' : m' < rest.length := by simpa using Nat.lt_of_succ_lt_succ hm
            simpa using hbefore m' hm' (by omega)

lemma findOutputLoop_none (cx cy : Int) :
    ∀ (l : List OutputItem) (i : Nat), findOutputLoop cx cy l i = none →
      ∀ m, ∀ hm : m < l.length, rectContains (l.get ⟨m, hm⟩).desc cx cy = false
  | [], i => by simp
  | o :: rest, i => by
      intro h m hm
      by_cases hc : rectContains o.desc cx cy = true
      · simp [findOutputLoop, hc] at h
      · have h' : findOutputLoop cx cy rest (i + 1) = none := by
          simpa [findOutputLoop, hc] using h
        cases m with
        | zero => simpa using hc
        | succ m' =>
            have hm' : m' < rest.length := by simpa using Nat.lt_of_succ_lt_succ hm
            simpa using findOutputLoop_none cx cy rest (i + 1) h' m' hm'

lemma SelectOutputIndex_range (outputs : List OutputItem) (mi x y w h : Int)
    (hne : outputs ≠ []) :
    0 ≤ SelectOutputIndex outputs mi x y w h ∧
      SelectOutputIndex outputs mi x y w h < (outputs.length : Int) := by
  have hlen : 0 < outputs.length := by
    cases outputs with
    | nil => exact absurd rfl hne
    | cons a l => simp
  unfold SelectOutputIndex
  split_ifs with hmi
  · unfold FindOutputIndex
    have hni : outputs.isEmpty = false := by
      cases outputs with
      | nil => exact absurd rfl hne
      | cons a l => simp
    simp only [hni, Bool.false_eq_true, if_false]
    cases hfl : findOutputLoop (x + Int.tdiv w 2) (y + Int.tdiv h 2) outputs 0 with
    | none => dsimp only; constructor <;> [omega; exact_mod_cast hlen]
    | some j =>
        obtain ⟨k, hk, hj, _, _⟩ := findOutputLoop_spec _ _ outputs 0 j hfl
        dsimp only
        constructor <;> omega
  · push_neg at hmi
    omega

/-- C2: the monitor-mode geometry resolver translates the caller rectangle by
the monitor origin, clamps each edge by `left = max(translated.left, 0)`,
`top = max(translated.top, 0)`, `right = min(translated.right, width)`,
`bottom = min(translated.bottom, height)`, and fails if and only if the
clamped rectangle satisfies `right ≤ left` or `bottom ≤ top`; a successful
resolution always has positive width and height, and when the resolver fails
inside `main` the process exits with code 1 producing no file. -/
theorem C2_crop_clamping (desktop : RECT) (x y w h : Int) :
    (CropRectForOutput desktop x y w h = none ↔
      min (x - desktop.left + w) (desktop.right - desktop.left) ≤ max (x - desktop.left) 0 ∨
      min (y - desktop.top + h) (desktop.bottom - desktop.top) ≤ max (y - desktop.top) 0)
  ∧ (∀ c, CropRectForOutput desktop x y w h = some c →
      c.left = max (x - desktop.left) 0 ∧
      c.top = max (y - desktop.top) 0 ∧
      c.right = min (x - desktop.left + w) (desktop.right - desktop.left) ∧
      c.bottom = min (y - desktop.top + h) (desktop.bottom - desktop.top) ∧
      0 < c.right - c.left ∧ 0 < c.bottom - c.top)
  ∧ (∀ (env : DxgiEnv) (argv : List String) (fs : FsState) (o : Options),
      ParseArgs argv = some o → env.coInitOk = true → env.createFactoryOk = true →
      env.outputs ≠ [] →
      CropRectForOutput
        ((env.outputs.getD
            (SelectOutputIndex env.outputs o.monitorIndex o.cropX o.cropY o.cropW
              o.cropH).toNat ⟨⟨0, 0, 0, 0⟩⟩).desc)
        o.cropX o.cropY o.cropW o.cropH = none →
      dxgiMain env argv fs = (1, [Ev.enumerateOutputs], fs)) := by
  refine ⟨?_, ?_, ?_⟩
  · simp only [CropRectForOutput]
    split_ifs with hc
    · simpa using hc
    · simpa using hc
  · intro c hc
    simp only [CropRectForOutput] at hc
    split_ifs at hc with hcond
    all_goals injection hc with hc'
    all_goals subst hc'
    all_goals push_neg at hcond
    all_goals exact ⟨rfl, rfl, rfl, rfl, by dsimp only; omega, by dsimp only; omega⟩
  · intro env argv fs o hparse hco hfac hne hcrop
    have hni : env.outputs.isEmpty = false := by
      cases houts : env.outputs with
      | nil => exact absurd houts hne
      | cons a l => simp
    have hrange := SelectOutputIndex_range env.outputs o.monitorIndex o.cropX o.cropY
      o.cropW o.cropH hne
    unfold dxgiMain
    rw [hparse]
    simp only [hco, hfac, hni, Bool.not_true, Bool.false_eq_true, if_false,
      Bool.false_eq_true]
    rw [if_neg (by omega)]
    rw [hcrop]

/-- Witness for C2 at a concrete monitor and partially-overlapping rectangle. -/
theorem C2_crop_clamping_witness :
    CropRectForOutput ⟨100, 0, 1700, 900⟩ 50 (-20) 200 100 = some ⟨0, 0, 150, 80⟩ ∧
    (0 : Int) < (150 : Int) - 0 ∧ (0 : Int) < (80 : Int) - 0 := by
  have h := (C2_crop_clamping ⟨100, 0, 1700, 900⟩ 50 (-20) 200 100).2.1
    ⟨0, 0, 150, 80⟩ (by decide)
  exact ⟨by decide, h.2.2.2.2.1, h.2.2.2.2.2⟩

/-- C3: with a nonempty enumerated monitor list, an explicit in-range monitor
index is used as-is; otherwise the center of the caller's crop rectangle is
computed and the first monitor (in enumeration order) containing it is
selected, falling back to index 0 when no monitor contains the center. -/
theorem C3_monitor_selection (outputs : List OutputItem) (mi x y w h : Int)
    (hne : outputs ≠ []) :
    ((0 ≤ mi ∧ mi < (outputs.length : Int)) →
      SelectOutputIndex outputs mi x y w h = mi)
  ∧ (¬(0 ≤ mi ∧ mi < (outputs.length : Int)) →
      ((∃ k, ∃ hk : k < outputs.length,
          SelectOutputIndex outputs mi x y w h = (k : Int) ∧
          rectContains (outputs.get ⟨k, hk⟩).desc (x + Int.tdiv w 2) (y + Int.tdiv h 2)
            = true ∧
          ∀ m, ∀ hm : m < outputs.length, m < k →
            rectContains (outputs.get ⟨m, hm⟩).desc (x + Int.tdiv w 2) (y + Int.tdiv h 2)
              = false)
       ∨ ((∀ m, ∀ hm : m < outputs.length,
            rectContains (outputs.get ⟨m, hm⟩).desc (x + Int.tdiv w 2) (y + Int.tdiv h 2)
              = false)
          ∧ SelectOutputIndex outputs mi x y w h = 0))) := by
  have hni : outputs.isEmpty = false := by
    cases outputs with
    | nil => exact absurd rfl hne
    | cons a l => simp
  constructor
  · intro hin
    unfold SelectOutputIndex
    rw [if_neg (by omega)]
  · intro hout
    have hsel : SelectOutputIndex outputs mi x y w h = FindOutputIndex outputs x y w h := by
      unfold SelectOutputIndex
      rw [if_pos (by omega)]
    rw [hsel]
    unfold FindOutputIndex
    simp only [hni, Bool.false_eq_true, if_false]
    cases hfl : findOutputLoop (x + Int.tdiv w 2) (y + Int.tdiv h 2) outputs 0 with
    | none =>
        right
        exact ⟨findOutputLoop_none _ _ outputs 0 hfl, rfl⟩
    | some j =>
        left
        obtain ⟨k, hk, hj, hget, hbefore⟩ := findOutputLoop_spec _ _ outputs 0 j hfl
        exact ⟨k, hk, by dsimp only; omega, hget, hbefore⟩

/-- A concrete two-monitor layout used by witnesses. -/
def demoOutputs : List OutputItem :=
  [⟨⟨0, 0, 1920, 1080⟩⟩, ⟨⟨1920, 0, 3840, 1080⟩⟩]

/-- Witness for C3: with no explicit index, a rectangle centered on the second
monitor selects index 1, the first (and only) monitor containing the center. -/
theorem C3_monitor_selection_witness :
    (∃ k, ∃ hk : k < demoOutputs.length,
        SelectOutputIndex demoOutputs (-1) 2000 100 100 100 = (k : Int) ∧
        rectContains (demoOutputs.get ⟨k, hk⟩).desc (2000 + Int.tdiv 100 2)
          (100 + Int.tdiv 100 2) = true ∧
        ∀ m, ∀ hm : m < demoOutputs.length, m < k →
          rectContains (demoOutputs.get ⟨m, hm⟩).desc (2000 + Int.tdiv 100 2)
            (100 + Int.tdiv 100 2) = false)
    ∨ ((∀ m, ∀ hm : m < demoOutputs.length,
          rectContains (demoOutputs.get ⟨m, hm⟩).desc (2000 + Int.tdiv 100 2)
            (100 + Int.tdiv 100 2) = false)
        ∧ SelectOutputIndex demoOutputs (-1) 2000 100 100 100 = 0) :=
  (C3_monitor_selection demoOutputs (-1) 2000 100 100 100 (by decide)).2 (by decide)

/-- C10: a parsed command line whose crop has non-positive width or height, or
whose output path is missing, is rejected by ParseArgs, making `main` exit
with code 2 before any enumeration, device-creation or capture event and
before touching any file; conversely every accepted command line has a
positive crop width and height, so the later EmptyCropRegion failure can only
arise from clamping a positively-sized rectangle. -/
theorem C10_parse_guards (env : DxgiEnv) :
    (∀ (argv : List String) (fs : FsState) (o : Options),
      parseArgsLoop argv defaultOptions = some o →
      (o.cropW ≤ 0 ∨ o.cropH ≤ 0 ∨ o.outPath = "") →
      dxgiMain env argv fs = (2, [], fs))
  ∧ (∀ (argv : List String) (o : Options),
      ParseArgs argv = some o → 0 < o.cropW ∧ 0 < o.cropH ∧ o.outPath ≠ "") := by
  constructor
  · intro argv fs o hloop hbad
    have hp : ParseArgs argv = none := by
      unfold ParseArgs
      rw [hloop]
      dsimp only
      rw [if_pos (by tauto)]
    unfold dxgiMain
    rw [hp]
  · intro argv o hp
    unfold ParseArgs at hp
    cases hl : parseArgsLoop argv defaultOptions with
    | none => rw [hl] at hp; exact absurd hp (by simp)
    | some o' =>
        rw [hl] at hp
        dsimp only at hp
        split_ifs at hp with h1 h2
        all_goals injection hp with hp'
        all_goals subst hp'
        all_goals push_neg at h1
        all_goals exact ⟨by omega, by omega, h1.1⟩

/-- An all-successful WIC oracle for witnesses. -/
def okWic : WicOracle := ⟨0, 0, 0, 0, 0, 0, 0, 0, 0, 0, 0, 0, 0⟩

/-- A fully healthy DXGI environment over the demo monitor layout. -/
def demoDxgiEnv : DxgiEnv :=
  ⟨true, true, demoOutputs, true, true, .ok, true, true, true, okWic⟩

/-- Witness for C10: a `--crop` with zero width parses into options with
`cropW = 0` and makes `main` exit 2 with no events and untouched files. -/
theorem C10_parse_guards_witness :
    parseArgsLoop ["--out", "o.png", "--crop", "0", "0", "0", "10"] defaultOptions =
      some ⟨"o.png", 0, 0, 0, 10, -1, "png"⟩ ∧
    dxgiMain demoDxgiEnv ["--out", "o.png", "--crop", "0", "0", "0", "10"]
      ⟨none, none⟩ = (2, [], ⟨none, none⟩) := by
  refine ⟨by decide, ?_⟩
  exact (C10_parse_guards demoDxgiEnv).1 _ ⟨none, none⟩ ⟨"o.png", 0, 0, 0, 10, -1, "png"⟩
    (by decide) (Or.inl (by decide))

lemma cropCopyLoop_get (src : Nat → Nat) (rowPitch cl ct w : Nat) :
    ∀ (h : Nat) (base : Nat → Nat) (y i : Nat), y < h → i < w * 4 →
      cropCopyLoop src rowPitch cl ct w h base (y * (w * 4) + i) =
        src ((ct + y) * rowPitch + cl * 4 + i)
  | 0, base, y, i => by
      intro hy hi
      exact absurd hy (Nat.not_lt_zero y)
  | h + 1, base, y, i => by
      intro hy hi
      simp only [cropCopyLoop, memcpyBytes]
      by_cases hyh : y = h
      · subst hyh
        rw [if_pos ⟨Nat.le_add_right _ _, by omega⟩]
        congr 1
        omega
      · have hlt : y * (w * 4) + i < h * (w * 4) := by
          have h1 : y * (w * 4) + i < (y + 1) * (w * 4) := by
            rw [Nat.succ_mul]
            omega
          have h2 : (y + 1) * (w * 4) ≤ h * (w * 4) :=
            Nat.mul_le_mul_right _ (by omega)
          omega
        rw [if_neg (by omega)]
        exact cropCopyLoop_get src rowPitch cl ct w h base y i (by omega) hi

/-- C4: the pixel-extraction loop fills a tightly packed `cropW*cropH*4`-byte
buffer in which, for every output row `y < cropH` and byte `i < cropW*4`, the
byte at destination offset `y * cropW * 4 + i` equals the mapped source byte
at offset `(cropTop + y) * rowPitch + cropLeft * 4 + i` — no padding bytes
and no row-shifted pixels. -/
theorem C4_row_copy (src : Nat → Nat) (rowPitch cropLeft cropTop cropW cropH : Nat) :
    (∀ y i, y < cropH → i < cropW * 4 →
      cropPixels src rowPitch cropLeft cropTop cropW cropH (y * (cropW * 4) + i) =
        src ((cropTop + y) * rowPitch + cropLeft * 4 + i))
  ∧ cropBufSize cropW cropH = cropW * cropH * 4 :=
  ⟨fun y i hy hi => cropCopyLoop_get src rowPitch cropLeft cropTop cropW cropH
      (fun _ => 0) y i hy hi, rfl⟩

/-- Witness for C4 on a padded 12-byte-stride source: the second output row's
sixth byte comes from exactly the predicted source offset. -/
theorem C4_row_copy_witness :
    (1 < 2 ∧ 5 < 2 * 4) ∧
    cropPixels (fun n => n % 251) 12 1 1 2 2 (1 * (2 * 4) + 5) =
      (fun n => n % 251) ((1 + 1) * 12 + 1 * 4 + 5) ∧
    cropPixels (fun n => n % 251) 12 1 1 2 2 (1 * (2 * 4) + 5) = 33 := by
  refine ⟨by decide, ?_, by decide⟩
  exact (C4_row_copy (fun n => n % 251) 12 1 1 2 2).1 1 5 (by decide) (by decide)

/-- WIC oracle whose calls all succeed except the final frame Commit. -/
def cexWic : WicOracle :=
  { coCreateHr := 0, createStreamHr := 0, initFromFilenameHr := 0, createEncoderHr := 0,
    encoderInitHr := 0, createNewFrameHr := 0, frameInitHr := 0, setSizeHr := 0,
    setPixelFormatHr := 0, writePixelsHr := 0, frameCommitHr := E_FAIL,
    encoderCommitHr := 0, moveFileHr := 0 }

/-- Counterexample to C1: the duplication strategy's encoder `SavePng` opens
its WIC stream directly on the destination path, so when the frame Commit
fails after the stream was initialised, the encode fails yet the pre-existing
destination has been replaced by a partial file — contradicting the claim
that on any encoding failure the destination is left untouched and no partial
output is ever visible there, for both strategies' encoders. -/
theorem C1_counterexample :
    (SavePng cexWic 100 100 ⟨some .old, none⟩).1 = false ∧
    (SavePng cexWic 100 100 ⟨some .old, none⟩).2.dest = some .truncatedData ∧
    (SavePng cexWic 100 100 ⟨some .old, none⟩).2.dest ≠
      (⟨some .old, none⟩ : FsState).dest := by
  decide

/-- Outcome classification used about SavePngFromTexture runs that start with
no leftover temporary: either the run failed with both file slots as before,
or it succeeded with a complete PNG at the destination and no temporary. -/
def SaveOutcome (d : Option FileData) (r : Int × List Ev × FsState) : Prop :=
  (FAILED r.1 = true ∧ r.2.2 = ⟨d, none⟩) ∨
  (r.1 = S_OK ∧ r.2.2.temp = none ∧ ∃ w h, r.2.2.dest = some (.complete w h))

lemma wicEncodeToTemp_outcome (w : WicOracle) (oW oH : Nat) (d : Option FileData) :
    (FAILED (wicEncodeToTemp w oW oH ⟨d, none⟩).1 = true ∧
      (wicEncodeToTemp w oW oH ⟨d, none⟩).2 = ⟨d, none⟩) ∨
    ((wicEncodeToTemp w oW oH ⟨d, none⟩).1 = S_OK ∧
      (wicEncodeToTemp w oW oH ⟨d, none⟩).2 = ⟨some (.complete oW oH), none⟩) := by
  unfold wicEncodeToTemp
  by_cases h1 : FAILED w.coCreateHr = true
  · rw [if_pos h1]; exact Or.inl ⟨h1, rfl⟩
  rw [if_neg h1]
  by_cases h2 : FAILED w.createEncoderHr = true
  · rw [if_pos h2]; exact Or.inl ⟨h2, rfl⟩
  rw [if_neg h2]
  by_cases h3 : FAILED w.createStreamHr = true
  · rw [if_pos h3]; exact Or.inl ⟨h3, rfl⟩
  rw [if_neg h3]
  by_cases h4 : FAILED w.initFromFilenameHr = true
  · rw [if_pos h4]; exact Or.inl ⟨h4, rfl⟩
  rw [if_neg h4]
  dsimp only
  by_cases h5 : FAILED w.encoderInitHr = true
  · rw [if_pos h5]; exact Or.inl ⟨h5, rfl⟩
  rw [if_neg h5]
  by_cases h6 : FAILED w.createNewFrameHr = true
  · rw [if_pos h6]; exact Or.inl ⟨h6, rfl⟩
  rw [if_neg h6]
  by_cases h7 : FAILED w.frameInitHr = true
  · rw [if_pos h7]; exact Or.inl ⟨h7, rfl⟩
  rw [if_neg h7]
  by_cases h8 : FAILED w.setSizeHr = true
  · rw [if_pos h8]; exact Or.inl ⟨h8, rfl⟩
  rw [if_neg h8]
  by_cases h9 : FAILED w.setPixelFormatHr = true
  · rw [if_pos h9]; exact Or.inl ⟨h9, rfl⟩
  rw [if_neg h9]
  by_cases h10 : FAILED w.writePixelsHr = true
  · rw [if_pos h10]; exact Or.inl ⟨h10, rfl⟩
  rw [if_neg h10]
  by_cases h11 : FAILED w.frameCommitHr = true
  · rw [if_pos h11]; exact Or.inl ⟨h11, rfl⟩
  rw [if_neg h11]
  by_cases h12 : FAILED w.encoderCommitHr = true
  · rw [if_pos h12]; exact Or.inl ⟨h12, rfl⟩
  rw [if_neg h12]
  by_cases h13 : FAILED w.moveFileHr = true
  · rw [if_pos h13]; exact Or.inl ⟨h13, rfl⟩
  rw [if_neg h13]
  exact Or.inr ⟨rfl, rfl⟩

set_option maxHeartbeats 1000000 in
lemma SavePngFromTexture_outcome (o : SaveOracle) (dW dH : Nat) (cr : Option CropRect)
    (d : Option FileData) :
    SaveOutcome d (SavePngFromTexture o dW dH false cr ⟨d, none⟩) := by
  unfold SaveOutcome SavePngFromTexture
  dsimp only
  rw [if_neg (by decide : ¬(false = true))]
  split_ifs with h1 h2
  · exact Or.inl ⟨h1, rfl⟩
  · exact Or.inl ⟨h2, rfl⟩
  · rcases wicEncodeToTemp_outcome o.wic
        (match cr with
          | some c => if 0 < c.width ∧ 0 < c.height then c.width else dW
          | none => dW)
        (match cr with
          | some c => if 0 < c.width ∧ 0 < c.height then c.height else dH
          | none => dH) d with
      ⟨hf, hfs⟩ | ⟨hs, hfs⟩
    · exact Or.inl ⟨hf, hfs⟩
    · exact Or.inr ⟨hs, by rw [hfs], _, _, by rw [hfs]⟩

/-- C1 (amended): the temp-file write-then-rename discipline holds for the
compositor strategy's encoder `SavePngFromTexture` — it encodes into the
destination path plus the reserved ".tmp" suffix and renames over the
destination only after every step succeeded; on any failure the temporary is
deleted and the destination keeps its prior content.  The duplication
strategy's encoder `SavePng` never touches a temporary file (it writes the
destination directly, so a mid-encode failure can leave partial output
there, as the counterexample shows). -/
theorem C1_atomic_write (o : SaveOracle) (dW dH : Nat) (cr : Option CropRect)
    (d : Option FileData) :
    (FAILED (SavePngFromTexture o dW dH false cr ⟨d, none⟩).1 = true →
      (SavePngFromTexture o dW dH false cr ⟨d, none⟩).2.2.dest = d ∧
      (SavePngFromTexture o dW dH false cr ⟨d, none⟩).2.2.temp = none)
  ∧ (FAILED (SavePngFromTexture o dW dH false cr ⟨d, none⟩).1 = false →
      (SavePngFromTexture o dW dH false cr ⟨d, none⟩).1 = S_OK ∧
      (SavePngFromTexture o dW dH false cr ⟨d, none⟩).2.2.temp = none ∧
      ∃ w h, (SavePngFromTexture o dW dH false cr ⟨d, none⟩).2.2.dest =
        some (.complete w h))
  ∧ (∀ p : String, tempPathOf p = p ++ ".tmp")
  ∧ (∀ (wic : WicOracle) (w h : Nat) (fs : FsState),
      (SavePng wic w h fs).2.temp = fs.temp) := by
  have hout := SavePngFromTexture_outcome o dW dH cr d
  unfold SaveOutcome at hout
  refine ⟨?_, ?_, fun p => rfl, fun wic w h fs => ?_⟩
  · intro hF
    rcases hout with ⟨h1, h2⟩ | ⟨hS, hT, hE⟩
    · exact ⟨by rw [h2], by rw [h2]⟩
    · rw [hS] at hF
      exact absurd hF (by decide)
  · intro hF
    rcases hout with ⟨h1, h2⟩ | ⟨hS, hT, hE⟩
    · rw [h1] at hF
      exact absurd hF (by decide)
    · exact ⟨hS, hT, hE⟩
  · unfold SavePng
    by_cases g1 : FAILED wic.coCreateHr = true
    · rw [if_pos g1]
    rw [if_neg g1]
    by_cases g2 : FAILED wic.createStreamHr = true
    · rw [if_pos g2]
    rw [if_neg g2]
    by_cases g3 : FAILED wic.initFromFilenameHr = true
    · rw [if_pos g3]
    rw [if_neg g3]
    dsimp only
    by_cases g4 : FAILED wic.createEncoderHr = true
    · rw [if_pos g4]
    rw [if_neg g4]
    by_cases g5 : FAILED wic.encoderInitHr = true
    · rw [if_pos g5]
    rw [if_neg g5]
    by_cases g6 : FAILED wic.createNewFrameHr = true
    · rw [if_pos g6]
    rw [if_neg g6]
    by_cases g7 : FAILED wic.frameInitHr = true
    · rw [if_pos g7]
    rw [if_neg g7]
    by_cases g8 : FAILED wic.setSizeHr = true
    · rw [if_pos g8]
    rw [if_neg g8]
    by_cases g9 : FAILED wic.setPixelFormatHr = true
    · rw [if_pos g9]
    rw [if_neg g9]
    by_cases g10 : FAILED wic.writePixelsHr = true
    · rw [if_pos g10]
    rw [if_neg g10]
    by_cases g11 : FAILED wic.frameCommitHr = true
    · rw [if_pos g11]
    rw [if_neg g11]
    by_cases g12 : FAILED wic.encoderCommitHr = true
    · rw [if_pos g12]
    rw [if_neg g12]

/-- Witness for C1 (amended): with the frame Commit failing, the compositor
encoder leaves a pre-existing destination untouched and no temporary behind. -/
theorem C1_atomic_write_witness :
    (SavePngFromTexture ⟨0, 0, cexWic⟩ 64 64 false none ⟨some .old, none⟩).2.2.dest =
      some FileData.old ∧
    (SavePngFromTexture ⟨0, 0, cexWic⟩ 64 64 false none ⟨some .old, none⟩).2.2.temp =
      none :=
  (C1_atomic_write ⟨0, 0, cexWic⟩ 64 64 none (some .old)).1 (by decide)

lemma clampClientRect_spec (cropX cropY cropW cropH maxW maxH x y w h : Int)
    (hc : clampClientRect cropX cropY cropW cropH maxW maxH = some (x, y, w, h)) :
    0 ≤ x ∧ 0 ≤ y ∧ 0 < w ∧ 0 < h ∧ x + w ≤ maxW ∧ y + h ≤ maxH := by
  unfold clampClientRect at hc
  dsimp only at hc
  split_ifs at hc
  all_goals
    first
      | exact Option.noConfusion hc
      | (simp only [Option.some.injEq, Prod.mk.injEq] at hc; omega)

/-- C9: a successful TryGetClientCropRect yields a crop with positive extent
lying entirely inside the texture (`x + width ≤ descW`, `y + height ≤ descH`,
and nonnegative origin since the fields are unsigned); consequently every
per-row read of the subsequent crop loop — `cropWidth*4` bytes from offset
`(y + row) * rowPitch + x * 4` — stays inside the `descH * rowPitch` bytes of
the mapped staging surface whenever the row pitch is at least `descW * 4`. -/
theorem C9_client_crop_in_bounds (q : ClientQuery) (descW descH : Nat)
    (hW : descW < 2^32) (hH : descH < 2^32) (crop : CropRect)
    (hc : TryGetClientCropRect q descW descH = some crop) :
    (0 < crop.width ∧ 0 < crop.height ∧ crop.x + crop.width ≤ descW ∧
      crop.y + crop.height ≤ descH)
  ∧ (∀ rowPitch, descW * 4 ≤ rowPitch → ∀ y, y < crop.height → ∀ i, i < crop.width * 4 →
      (crop.y + y) * rowPitch + crop.x * 4 + i < descH * rowPitch) := by
  have hbounds : 0 < crop.width ∧ 0 < crop.height ∧ crop.x + crop.width ≤ descW ∧
      crop.y + crop.height ≤ descH := by
    unfold TryGetClientCropRect at hc
    rcases hfr : (if q.getWindowRectOk then some q.windowRect
        else if q.dwmOk then some q.dwmRect else none) with _ | frame
    · rw [hfr] at hc; cases hc
    rw [hfr] at hc
    dsimp only at hc
    by_cases hgc : (!q.getClientRectOk) = true
    · rw [if_pos hgc] at hc; cases hc
    rw [if_neg hgc] at hc
    by_cases hcs : (!q.clientToScreenOk) = true
    · rw [if_pos hcs] at hc; cases hc
    rw [if_neg hcs] at hc
    rcases hcl : clampClientRect (q.screenTopLeftX - frame.left)
        (q.screenTopLeftY - frame.top) (q.clientRect.right - q.clientRect.left)
        (q.clientRect.bottom - q.clientRect.top) (intOfUINT descW) (intOfUINT descH)
      with _ | ⟨cx, cy, cw, ch⟩
    · rw [hcl] at hc; cases hc
    rw [hcl] at hc
    dsimp only at hc
    injection hc with hc'
    subst hc'
    have hspec := clampClientRect_spec _ _ _ _ _ _ cx cy cw ch hcl
    have hmw : intOfUINT descW = (descW : Int) := by
      unfold intOfUINT at hspec ⊢
      split_ifs with hlt
      · omega
      · exfalso; omega
    have hmh : intOfUINT descH = (descH : Int) := by
      rw [hmw] at hspec
      unfold intOfUINT at hspec ⊢
      split_ifs with hlt
      · omega
      · exfalso; omega
    rw [hmw, hmh] at hspec
    unfold uintOfInt
    dsimp only
    omega
  refine ⟨hbounds, ?_⟩
  intro rowPitch hrp y hy i hi
  obtain ⟨hw1, hh1, hxw, hyh⟩ := hbounds
  have hrow : crop.x * 4 + i < rowPitch := by
    have h2 : (crop.x + crop.width) * 4 ≤ descW * 4 := Nat.mul_le_mul_right 4 hxw
    omega
  have hy1 : crop.y + y + 1 ≤ descH := by omega
  calc (crop.y + y) * rowPitch + crop.x * 4 + i
      < (crop.y + y) * rowPitch + rowPitch := by omega
    _ = (crop.y + y + 1) * rowPitch := by ring
    _ ≤ descH * rowPitch := Nat.mul_le_mul_right rowPitch hy1

/-- Witness for C9 on a concrete window geometry and texture. -/
theorem C9_client_crop_in_bounds_witness :
    TryGetClientCropRect ⟨true, ⟨100, 100, 500, 400⟩, false, ⟨0, 0, 0, 0⟩, true,
        ⟨0, 0, 300, 200⟩, true, 110, 130⟩ 380 280 = some ⟨10, 30, 300, 200⟩ ∧
    (0 < 300 ∧ 0 < 200 ∧ 10 + 300 ≤ 380 ∧ 30 + 200 ≤ 280) ∧
    (30 + 5) * 1600 + 10 * 4 + 7 < 280 * 1600 := by
  refine ⟨by decide, ?_, ?_⟩
  · exact (C9_client_crop_in_bounds
      ⟨true, ⟨100, 100, 500, 400⟩, false, ⟨0, 0, 0, 0⟩, true, ⟨0, 0, 300, 200⟩, true,
        110, 130⟩ 380 280 (by decide) (by decide) ⟨10, 30, 300, 200⟩ (by decide)).1
  · exact (C9_client_crop_in_bounds
      ⟨true, ⟨100, 100, 500, 400⟩, false, ⟨0, 0, 0, 0⟩, true, ⟨0, 0, 300, 200⟩, true,
        110, 130⟩ 380 280 (by decide) (by decide) ⟨10, 30, 300, 200⟩ (by decide)).2
      1600 (by decide) 5 (by decide) 7 (by decide)

lemma SavePngFromTexture_trace (o : SaveOracle) (dW dH : Nat) (pe : Bool)
    (cr : Option CropRect) (fs : FsState) :
    (SavePngFromTexture o dW dH pe cr fs).2.1 = [] ∨
    (SavePngFromTexture o dW dH pe cr fs).2.1 = [.copyResource] ∨
    (SavePngFromTexture o dW dH pe cr fs).2.1 =
      [.copyResource, .mapStaging, .unmapStaging] := by
  unfold SavePngFromTexture
  by_cases h1 : pe = true
  · rw [if_pos h1]; exact Or.inl rfl
  rw [if_neg h1]
  by_cases h2 : FAILED o.createStagingHr = true
  · rw [if_pos h2]; exact Or.inl rfl
  rw [if_neg h2]
  by_cases h3 : FAILED o.mapHr = true
  · rw [if_pos h3]; exact Or.inr (Or.inl rfl)
  rw [if_neg h3]
  exact Or.inr (Or.inr rfl)

lemma CaptureWindow_shape (env : WgcEnv) (hwndNull : Bool) (path : Option String)
    (clientOnly : Bool) (fs : FsState) :
    ((hwndNull = true ∨ path = none) ∧
      CaptureWindowToPngFileEx env hwndNull path clientOnly fs = (E_INVALIDARG, [], fs)) ∨
    (FAILED env.createD3DDeviceHr = true ∧
      CaptureWindowToPngFileEx env hwndNull path clientOnly fs =
        (env.createD3DDeviceHr, [.createDevice], fs)) ∨
    (FAILED env.deviceBridgeHr = true ∧
      CaptureWindowToPngFileEx env hwndNull path clientOnly fs =
        (env.deviceBridgeHr, [.createDevice, .deviceBridge], fs)) ∨
    (FAILED env.createForWindowHr = true ∧
      CaptureWindowToPngFileEx env hwndNull path clientOnly fs =
        (env.createForWindowHr, [.createDevice, .deviceBridge, .createForWindow], fs)) ∨
    ((env.sizeW ≤ 0 ∨ env.sizeH ≤ 0) ∧
      CaptureWindowToPngFileEx env hwndNull path clientOnly fs =
        (E_FAIL, [.createDevice, .deviceBridge, .createForWindow], fs)) ∨
    (env.createEventOk = false ∧
      CaptureWindowToPngFileEx env hwndNull path clientOnly fs =
        (HRESULT_FROM_WIN32 env.lastError,
         [.createDevice, .deviceBridge, .createForWindow], fs)) ∨
    (env.frameArrives = false ∧
      CaptureWindowToPngFileEx env hwndNull path clientOnly fs =
        (HRESULT_FROM_WIN32 WAIT_TIMEOUT_CODE,
         [.createDevice, .deviceBridge, .createForWindow, .startCapture,
          .waitFrame 2000], fs)) ∨
    (env.frameArrives = true ∧
      CaptureWindowToPngFileEx env hwndNull path clientOnly fs =
        (E_FAIL,
         [.createDevice, .deviceBridge, .createForWindow, .startCapture,
          .waitFrame 2000], fs)) ∨
    (env.frameArrives = true ∧ FAILED env.queryInterfaceHr = true ∧
      CaptureWindowToPngFileEx env hwndNull path clientOnly fs =
        (env.queryInterfaceHr,
         [.createDevice, .deviceBridge, .createForWindow, .startCapture,
          .waitFrame 2000], fs)) ∨
    (env.frameArrives = true ∧ FAILED env.getInterfaceHr = true ∧
      CaptureWindowToPngFileEx env hwndNull path clientOnly fs =
        (env.getInterfaceHr,
         [.createDevice, .deviceBridge, .createForWindow, .startCapture,
          .waitFrame 2000], fs)) ∨
    (env.frameArrives = true ∧
      CaptureWindowToPngFileEx env hwndNull path clientOnly fs =
        ((SavePngFromTexture env.save env.descW env.descH (path = some "")
            (if clientOnly then TryGetClientCropRect env.clientQuery env.descW env.descH
             else none) fs).1,
         [.createDevice, .deviceBridge, .createForWindow, .startCapture,
          .waitFrame 2000] ++
           (SavePngFromTexture env.save env.descW env.descH (path = some "")
             (if clientOnly then TryGetClientCropRect env.clientQuery env.descW env.descH
              else none) fs).2.1,
         (SavePngFromTexture env.save env.descW env.descH (path = some "")
           (if clientOnly then TryGetClientCropRect env.clientQuery env.descW env.descH
            else none) fs).2.2)) := by
  unfold CaptureWindowToPngFileEx
  by_cases h1 : (hwndNull = true ∨ path = none)
  · rw [if_pos h1]; exact Or.inl ⟨h1, rfl⟩
  rw [if_neg h1]
  by_cases h2 : FAILED env.createD3DDeviceHr = true
  · rw [if_pos h2]; exact Or.inr (Or.inl ⟨h2, rfl⟩)
  rw [if_neg h2]
  by_cases h3 : FAILED env.deviceBridgeHr = true
  · rw [if_pos h3]; exact Or.inr (Or.inr (Or.inl ⟨h3, rfl⟩))
  rw [if_neg h3]
  by_cases h4 : FAILED env.createForWindowHr = true
  · rw [if_pos h4]; exact Or.inr (Or.inr (Or.inr (Or.inl ⟨h4, rfl⟩)))
  rw [if_neg h4]
  by_cases h5 : (env.sizeW ≤ 0 ∨ env.sizeH ≤ 0)
  · rw [if_pos h5]; exact Or.inr (Or.inr (Or.inr (Or.inr (Or.inl ⟨h5, rfl⟩))))
  rw [if_neg h5]
  by_cases h6 : (!env.createEventOk) = true
  · rw [if_pos h6]
    exact Or.inr (Or.inr (Or.inr (Or.inr (Or.inr (Or.inl ⟨by simpa using h6, rfl⟩)))))
  rw [if_neg h6]
  by_cases h7 : (!env.frameArrives) = true
  · rw [if_pos h7]
    exact Or.inr (Or.inr (Or.inr (Or.inr (Or.inr (Or.inr (Or.inl ⟨by simpa using h7, rfl⟩))))))
  rw [if_neg h7]
  have h7' : env.frameArrives = true := by simpa using h7
  by_cases h8 : (!env.capturedNonNull) = true
  · rw [if_pos h8]
    exact Or.inr (Or.inr (Or.inr (Or.inr (Or.inr (Or.inr (Or.inr (Or.inl ⟨h7', rfl⟩)))))))
  rw [if_neg h8]
  by_cases h9 : FAILED env.queryInterfaceHr = true
  · rw [if_pos h9]
    exact Or.inr (Or.inr (Or.inr (Or.inr (Or.inr (Or.inr (Or.inr (Or.inr
      (Or.inl ⟨h7', h9, rfl⟩))))))))
  rw [if_neg h9]
  by_cases h10 : FAILED env.getInterfaceHr = true
  · rw [if_pos h10]
    exact Or.inr (Or.inr (Or.inr (Or.inr (Or.inr (Or.inr (Or.inr (Or.inr (Or.inr
      (Or.inl ⟨h7', h10, rfl⟩)))))))))
  rw [if_neg h10]
  exact Or.inr (Or.inr (Or.inr (Or.inr (Or.inr (Or.inr (Or.inr (Or.inr (Or.inr
    (Or.inr ⟨h7', rfl⟩)))))))))

lemma dxgiMain_shape (env : DxgiEnv) (argv : List String) (fs : FsState) :
    dxgiMain env argv fs = (2, [], fs) ∨
    dxgiMain env argv fs = (1, [], fs) ∨
    dxgiMain env argv fs = (1, [.enumerateOutputs], fs) ∨
    dxgiMain env argv fs = (1, [.enumerateOutputs, .createDevice], fs) ∨
    dxgiMain env argv fs = (1, [.enumerateOutputs, .createDevice, .duplicateOutput], fs) ∨
    (env.acquireResult ≠ .ok ∧
      dxgiMain env argv fs =
        (1, [.enumerateOutputs, .createDevice, .duplicateOutput, .acquireFrame 500], fs)) ∨
    (env.acquireResult = .ok ∧
      dxgiMain env argv fs =
        (1, [.enumerateOutputs, .createDevice, .duplicateOutput, .acquireFrame 500,
             .releaseFrame], fs)) ∨
    (env.acquireResult = .ok ∧
      dxgiMain env argv fs =
        (1, [.enumerateOutputs, .createDevice, .duplicateOutput, .acquireFrame 500,
             .copyResource, .releaseFrame], fs)) ∨
    (env.acquireResult = .ok ∧ ∃ w h fs2, SavePng env.wic w h fs = (false, fs2) ∧
      dxgiMain env argv fs =
        (1, [.enumerateOutputs, .createDevice, .duplicateOutput, .acquireFrame 500,
             .copyResource, .releaseFrame, .mapStaging, .unmapStaging], fs2)) ∨
    (env.acquireResult = .ok ∧ ∃ w h fs2, SavePng env.wic w h fs = (true, fs2) ∧
      dxgiMain env argv fs =
        (0, [.enumerateOutputs, .createDevice, .duplicateOutput, .acquireFrame 500,
             .copyResource, .releaseFrame, .mapStaging, .unmapStaging], fs2)) := by
  unfold dxgiMain
  cases hP : ParseArgs argv with
  | none => exact Or.inl rfl
  | some o =>
  dsimp only
  by_cases h1 : (!env.coInitOk) = true
  · rw [if_pos h1]; exact Or.inr (Or.inl rfl)
  rw [if_neg h1]
  by_cases h2 : (!env.createFactoryOk) = true
  · rw [if_pos h2]; exact Or.inr (Or.inl rfl)
  rw [if_neg h2]
  by_cases h3 : env.outputs.isEmpty = true
  · rw [if_pos h3]; exact Or.inr (Or.inr (Or.inl rfl))
  rw [if_neg h3]
  by_cases h4 : (SelectOutputIndex env.outputs o.monitorIndex o.cropX o.cropY o.cropW
      o.cropH < 0 ∨
      (env.outputs.length : Int) ≤ SelectOutputIndex env.outputs o.monitorIndex o.cropX
        o.cropY o.cropW o.cropH)
  · rw [if_pos h4]; exact Or.inr (Or.inr (Or.inl rfl))
  rw [if_neg h4]
  cases hcr : CropRectForOutput
      (env.outputs.getD (SelectOutputIndex env.outputs o.monitorIndex o.cropX o.cropY
        o.cropW o.cropH).toNat ⟨⟨0, 0, 0, 0⟩⟩).desc o.cropX o.cropY o.cropW o.cropH with
  | none => exact Or.inr (Or.inr (Or.inl rfl))
  | some cropRect =>
  dsimp only
  by_cases h5 : (!env.createDeviceOk) = true
  · rw [if_pos h5]; exact Or.inr (Or.inr (Or.inr (Or.inl rfl)))
  rw [if_neg h5]
  by_cases h6 : (!env.duplicateOutputOk) = true
  · rw [if_pos h6]; exact Or.inr (Or.inr (Or.inr (Or.inr (Or.inl rfl))))
  rw [if_neg h6]
  cases hacq : env.acquireResult with
  | timeout =>
      exact Or.inr (Or.inr (Or.inr (Or.inr (Or.inr (Or.inl ⟨by decide, rfl⟩)))))
  | failed =>
      exact Or.inr (Or.inr (Or.inr (Or.inr (Or.inr (Or.inl ⟨by decide, rfl⟩)))))
  | ok =>
  dsimp only
  by_cases h7 : (!env.frameAsOk) = true
  · rw [if_pos h7]
    exact Or.inr (Or.inr (Or.inr (Or.inr (Or.inr (Or.inr (Or.inl ⟨rfl, rfl⟩))))))
  rw [if_neg h7]
  by_cases h8 : (!env.createStagingOk) = true
  · rw [if_pos h8]
    exact Or.inr (Or.inr (Or.inr (Or.inr (Or.inr (Or.inr (Or.inl ⟨rfl, rfl⟩))))))
  rw [if_neg h8]
  by_cases h9 : (!env.mapOk) = true
  · rw [if_pos h9]
    exact Or.inr (Or.inr (Or.inr (Or.inr (Or.inr (Or.inr (Or.inr (Or.inl ⟨rfl, rfl⟩)))))))
  rw [if_neg h9]
  cases hsv : SavePng env.wic (cropRect.right - cropRect.left).toNat
      (cropRect.bottom - cropRect.top).toNat fs with
  | mk ok fs2 =>
  cases ok with
  | false =>
      exact Or.inr (Or.inr (Or.inr (Or.inr (Or.inr (Or.inr (Or.inr (Or.inr (Or.inl
        ⟨rfl, _, _, fs2, hsv, rfl⟩))))))))
  | true =>
      exact Or.inr (Or.inr (Or.inr (Or.inr (Or.inr (Or.inr (Or.inr (Or.inr (Or.inr
        ⟨rfl, _, _, fs2, hsv, rfl⟩))))))))

/-- Recogniser for frame-acquisition events regardless of their bound. -/
def isAcquireEv : Ev → Bool
  | .acquireFrame _ => true
  | _ => false

/-- Recogniser for frame-wait events regardless of their bound. -/
def isWaitEv : Ev → Bool
  | .waitFrame _ => true
  | _ => false

lemma SavePngFromTexture_trace_events (o : SaveOracle) (dW dH : Nat) (pe : Bool)
    (cr : Option CropRect) (fs : FsState) (e : Ev)
    (he : e ∈ (SavePngFromTexture o dW dH pe cr fs).2.1) :
    e = .copyResource ∨ e = .mapStaging ∨ e = .unmapStaging := by
  rcases SavePngFromTexture_trace o dW dH pe cr fs with hS | hS | hS <;>
    rw [hS] at he <;> simp_all

/-- C7: the duplication strategy acquires its frame with the fixed 500 ms
bound, at most once per invocation, a timeout is terminal (exit 1, files
untouched) and a successful run acquires and releases exactly one frame; the
compositor strategy waits on the frame event with the fixed 2000 ms bound, at
most once, a timeout is terminal (the WAIT_TIMEOUT HRESULT, a failure, files
untouched), and a non-failing run consumed exactly one frame wait. -/
theorem C7_acquisition_bounds :
    (∀ (env : DxgiEnv) (argv : List String) (fs : FsState) (t : Nat),
      Ev.acquireFrame t ∈ (dxgiMain env argv fs).2.1 → t = 500)
  ∧ (∀ (env : DxgiEnv) (argv : List String) (fs : FsState),
      ((dxgiMain env argv fs).2.1.countP isAcquireEv) ≤ 1)
  ∧ (∀ (env : DxgiEnv) (argv : List String) (fs : FsState),
      env.acquireResult = .timeout →
      Ev.acquireFrame 500 ∈ (dxgiMain env argv fs).2.1 →
      (dxgiMain env argv fs).1 = 1 ∧ (dxgiMain env argv fs).2.2 = fs)
  ∧ (∀ (env : DxgiEnv) (argv : List String) (fs : FsState),
      (dxgiMain env argv fs).1 = 0 →
      ((dxgiMain env argv fs).2.1.countP isAcquireEv) = 1 ∧
      ((dxgiMain env argv fs).2.1.count Ev.releaseFrame) = 1)
  ∧ (∀ (env : WgcEnv) (hw : Bool) (p : Option String) (c : Bool) (fs : FsState) (t : Nat),
      Ev.waitFrame t ∈ (CaptureWindowToPngFileEx env hw p c fs).2.1 → t = 2000)
  ∧ (∀ (env : WgcEnv) (hw : Bool) (p : Option String) (c : Bool) (fs : FsState),
      ((CaptureWindowToPngFileEx env hw p c fs).2.1.countP isWaitEv) ≤ 1)
  ∧ (∀ (env : WgcEnv) (hw : Bool) (p : Option String) (c : Bool) (fs : FsState),
      env.frameArrives = false →
      Ev.waitFrame 2000 ∈ (CaptureWindowToPngFileEx env hw p c fs).2.1 →
      (CaptureWindowToPngFileEx env hw p c fs).1 = HRESULT_FROM_WIN32 WAIT_TIMEOUT_CODE ∧
      FAILED (CaptureWindowToPngFileEx env hw p c fs).1 = true ∧
      (CaptureWindowToPngFileEx env hw p c fs).2.2 = fs)
  ∧ (∀ (env : WgcEnv) (hw : Bool) (p : Option String) (c : Bool) (fs : FsState),
      env.lastError ≠ 0 →
      FAILED (CaptureWindowToPngFileEx env hw p c fs).1 = false →
      ((CaptureWindowToPngFileEx env hw p c fs).2.1.countP isWaitEv) = 1) := by
  refine ⟨?_, ?_, ?_, ?_, ?_, ?_, ?_, ?_⟩
  · intro env argv fs t ht
    rcases dxgiMain_shape env argv fs with hEq | hEq | hEq | hEq | hEq |
      ⟨ha, hEq⟩ | ⟨ha, hEq⟩ | ⟨ha, hEq⟩ | ⟨ha, w, h, fs2, hsv, hEq⟩ |
      ⟨ha, w, h, fs2, hsv, hEq⟩ <;>
      rw [hEq] at ht <;> simp_all
  · intro env argv fs
    rcases dxgiMain_shape env argv fs with hEq | hEq | hEq | hEq | hEq |
      ⟨ha, hEq⟩ | ⟨ha, hEq⟩ | ⟨ha, hEq⟩ | ⟨ha, w, h, fs2, hsv, hEq⟩ |
      ⟨ha, w, h, fs2, hsv, hEq⟩ <;>
      rw [hEq] <;> dsimp only <;> decide
  · intro env argv fs htm ht
    rcases dxgiMain_shape env argv fs with hEq | hEq | hEq | hEq | hEq |
      ⟨ha, hEq⟩ | ⟨ha, hEq⟩ | ⟨ha, hEq⟩ | ⟨ha, w, h, fs2, hsv, hEq⟩ |
      ⟨ha, w, h, fs2, hsv, hEq⟩
    all_goals
      first
        | (rw [hEq]; exact ⟨rfl, rfl⟩)
        | (rw [htm] at ha; exact AcquireRes.noConfusion ha)
        | (rw [hEq] at ht; simp at ht)
  · intro env argv fs h0
    rcases dxgiMain_shape env argv fs with hEq | hEq | hEq | hEq | hEq |
      ⟨ha, hEq⟩ | ⟨ha, hEq⟩ | ⟨ha, hEq⟩ | ⟨ha, w, h, fs2, hsv, hEq⟩ |
      ⟨ha, w, h, fs2, hsv, hEq⟩
    all_goals
      first
        | (rw [hEq]; refine ⟨?_, ?_⟩ <;> dsimp only <;> decide)
        | (rw [hEq] at h0; simp at h0)
  · intro env hw p c fs t ht
    rcases CaptureWindow_shape env hw p c fs with ⟨h, hEq⟩ | ⟨h, hEq⟩ | ⟨h, hEq⟩ |
      ⟨h, hEq⟩ | ⟨h, hEq⟩ | ⟨h, hEq⟩ | ⟨h, hEq⟩ | ⟨h, hEq⟩ | ⟨h, h', hEq⟩ |
      ⟨h, h', hEq⟩ | ⟨h, hEq⟩
    all_goals rw [hEq] at ht
    all_goals try simp_all
    rcases ht with ht | ht
    · exact ht
    · rcases SavePngFromTexture_trace_events _ _ _ _ _ _ _ ht with he | he | he <;>
        exact Ev.noConfusion he
  · intro env hw p c fs
    rcases CaptureWindow_shape env hw p c fs with ⟨h, hEq⟩ | ⟨h, hEq⟩ | ⟨h, hEq⟩ |
      ⟨h, hEq⟩ | ⟨h, hEq⟩ | ⟨h, hEq⟩ | ⟨h, hEq⟩ | ⟨h, hEq⟩ | ⟨h, h', hEq⟩ |
      ⟨h, h', hEq⟩ | ⟨h, hEq⟩
    all_goals rw [hEq]
    all_goals try (dsimp only; decide)
    dsimp only
    rw [List.countP_append]
    have hz : (SavePngFromTexture env.save env.descW env.descH (p = some "")
        (if c then TryGetClientCropRect env.clientQuery env.descW env.descH else none)
        fs).2.1.countP isWaitEv = 0 := by
      rcases SavePngFromTexture_trace env.save env.descW env.descH (p = some "")
        (if c then TryGetClientCropRect env.clientQuery env.descW env.descH else none)
        fs with hS | hS | hS <;> rw [hS] <;> decide
    rw [hz]
    decide
  · intro env hw p c fs hfa hok
    rcases CaptureWindow_shape env hw p c fs with ⟨h, hEq⟩ | ⟨h, hEq⟩ | ⟨h, hEq⟩ |
      ⟨h, hEq⟩ | ⟨h, hEq⟩ | ⟨h, hEq⟩ | ⟨h, hEq⟩ | ⟨h, hEq⟩ | ⟨h, h', hEq⟩ |
      ⟨h, h', hEq⟩ | ⟨h, hEq⟩
    · rw [hEq] at hok; simp at hok
    · rw [hEq] at hok; simp at hok
    · rw [hEq] at hok; simp at hok
    · rw [hEq] at hok; simp at hok
    · rw [hEq] at hok; simp at hok
    · rw [hEq] at hok; simp at hok
    · rw [hEq]
      exact ⟨rfl, by dsimp only; decide, rfl⟩
    · rw [hfa] at h; exact Bool.noConfusion h
    · rw [hfa] at h; exact Bool.noConfusion h
    · rw [hfa] at h; exact Bool.noConfusion h
    · rw [hfa] at h; exact Bool.noConfusion h
  · intro env hw p c fs hlast hok
    rcases CaptureWindow_shape env hw p c fs with ⟨h, hEq⟩ | ⟨h, hEq⟩ | ⟨h, hEq⟩ |
      ⟨h, hEq⟩ | ⟨h, hEq⟩ | ⟨h, hEq⟩ | ⟨h, hEq⟩ | ⟨h, hEq⟩ | ⟨h, h', hEq⟩ |
      ⟨h, h', hEq⟩ | ⟨h, hEq⟩
    · rw [hEq] at hok
      dsimp only at hok
      exact absurd hok (by decide)
    · rw [hEq] at hok
      dsimp only at hok
      rw [h] at hok
      exact Bool.noConfusion hok
    · rw [hEq] at hok
      dsimp only at hok
      rw [h] at hok
      exact Bool.noConfusion hok
    · rw [hEq] at hok
      dsimp only at hok
      rw [h] at hok
      exact Bool.noConfusion hok
    · rw [hEq] at hok
      dsimp only at hok
      exact absurd hok (by decide)
    · rw [hEq] at hok
      dsimp only at hok
      have hneg : FAILED (HRESULT_FROM_WIN32 env.lastError) = true := by
        unfold FAILED HRESULT_FROM_WIN32
        rw [if_neg hlast]
        simp only [decide_eq_true_eq]
        have : env.lastError % 0x10000 < 0x10000 := Nat.mod_lt _ (by decide)
        omega
      rw [hneg] at hok
      exact Bool.noConfusion hok
    · rw [hEq] at hok
      dsimp only at hok
      exact absurd hok (by decide)
    · rw [hEq] at hok
      dsimp only at hok
      exact absurd hok (by decide)
    · rw [hEq] at hok
      dsimp only at hok
      rw [h'] at hok
      exact Bool.noConfusion hok
    · rw [hEq] at hok
      dsimp only at hok
      rw [h'] at hok
      exact Bool.noConfusion hok
    · rw [hEq]
      dsimp only
      rw [List.countP_append]
      have hz : (SavePngFromTexture env.save env.descW env.descH (p = some "")
          (if c then TryGetClientCropRect env.clientQuery env.descW env.descH else none)
          fs).2.1.countP isWaitEv = 0 := by
        rcases SavePngFromTexture_trace env.save env.descW env.descH (p = some "")
          (if c then TryGetClientCropRect env.clientQuery env.descW env.descH else none)
          fs with hS | hS | hS <;> rw [hS] <;> decide
      rw [hz]
      decide

/-- DXGI environment whose frame acquisition times out. -/
def timeoutDxgiEnv : DxgiEnv :=
  ⟨true, true, demoOutputs, true, true, .timeout, true, true, true, okWic⟩

/-- A well-formed monitor-capture command line used by witnesses. -/
def demoArgv : List String := ["--out", "o.png", "--crop", "0", "0", "100", "100"]

/-- Witness for C7: a concrete run whose 500 ms acquire times out exits with
code 1 and leaves the file system untouched. -/
theorem C7_acquisition_bounds_witness :
    (dxgiMain timeoutDxgiEnv demoArgv ⟨none, none⟩).1 = 1 ∧
    (dxgiMain timeoutDxgiEnv demoArgv ⟨none, none⟩).2.2 = ⟨none, none⟩ :=
  C7_acquisition_bounds.2.2.1 timeoutDxgiEnv demoArgv ⟨none, none⟩ rfl (by decide)

/-- C8: in both strategies the mapped staging surface is unmapped on every
exit path — in the compositor encoder the unmap is the final resource event
of `SavePngFromTexture` whenever the map happened, and in the duplication
`main` every trace containing the map also contains the unmap; moreover in
the duplication strategy CopyResource is immediately followed by the
duplication-frame release, so the GPU copy is issued synchronously before the
frame is released, never after. -/
theorem C8_unmap_and_copy_before_release :
    (∀ (o : SaveOracle) (dW dH : Nat) (pe : Bool) (cr : Option CropRect) (fs : FsState),
      Ev.mapStaging ∈ (SavePngFromTexture o dW dH pe cr fs).2.1 →
      ((SavePngFromTexture o dW dH pe cr fs).2.1.getLast? = some Ev.unmapStaging ∧
       Ev.unmapStaging ∈ (SavePngFromTexture o dW dH pe cr fs).2.1))
  ∧ (∀ (env : DxgiEnv) (argv : List String) (fs : FsState),
      Ev.mapStaging ∈ (dxgiMain env argv fs).2.1 →
      Ev.unmapStaging ∈ (dxgiMain env argv fs).2.1)
  ∧ (∀ (env : DxgiEnv) (argv : List String) (fs : FsState),
      Ev.copyResource ∈ (dxgiMain env argv fs).2.1 →
      ∃ l₁ l₂, (dxgiMain env argv fs).2.1 =
        l₁ ++ Ev.copyResource :: Ev.releaseFrame :: l₂) := by
  refine ⟨?_, ?_, ?_⟩
  · intro o dW dH pe cr fs hm
    rcases SavePngFromTexture_trace o dW dH pe cr fs with hS | hS | hS
    · rw [hS] at hm; simp at hm
    · rw [hS] at hm; simp at hm
    · rw [hS]; exact ⟨by decide, by decide⟩
  · intro env argv fs hm
    rcases dxgiMain_shape env argv fs with hEq | hEq | hEq | hEq | hEq |
      ⟨ha, hEq⟩ | ⟨ha, hEq⟩ | ⟨ha, hEq⟩ | ⟨ha, w, h, fs2, hsv, hEq⟩ |
      ⟨ha, w, h, fs2, hsv, hEq⟩ <;>
      rw [hEq] at hm ⊢ <;>
      first
        | (dsimp only; decide)
        | (simp at hm)
  · intro env argv fs hc
    rcases dxgiMain_shape env argv fs with hEq | hEq | hEq | hEq | hEq |
      ⟨ha, hEq⟩ | ⟨ha, hEq⟩ | ⟨ha, hEq⟩ | ⟨ha, w, h, fs2, hsv, hEq⟩ |
      ⟨ha, w, h, fs2, hsv, hEq⟩ <;>
      rw [hEq] at hc ⊢ <;>
      first
        | exact ⟨[Ev.enumerateOutputs, Ev.createDevice, Ev.duplicateOutput,
                  Ev.acquireFrame 500], [], rfl⟩
        | exact ⟨[Ev.enumerateOutputs, Ev.createDevice, Ev.duplicateOutput,
                  Ev.acquireFrame 500], [Ev.mapStaging, Ev.unmapStaging], rfl⟩
        | (simp at hc)

/-- Witness for C8: with every call succeeding, the compositor encoder's trace
maps and then unmaps last, and a full duplication run's trace places the copy
immediately before the frame release. -/
theorem C8_unmap_and_copy_before_release_witness :
    ((SavePngFromTexture ⟨0, 0, okWic⟩ 4 4 false none ⟨none, none⟩).2.1.getLast? =
      some Ev.unmapStaging ∧
     Ev.unmapStaging ∈ (SavePngFromTexture ⟨0, 0, okWic⟩ 4 4 false none
       ⟨none, none⟩).2.1) ∧
    ∃ l₁ l₂, (dxgiMain ⟨true, true, demoOutputs, true, true, .ok, true, true, true,
        okWic⟩ demoArgv ⟨none, none⟩).2.1 =
      l₁ ++ Ev.copyResource :: Ev.releaseFrame :: l₂ := by
  constructor
  · exact C8_unmap_and_copy_before_release.1 ⟨0, 0, okWic⟩ 4 4 false none ⟨none, none⟩
      (by decide)
  · exact C8_unmap_and_copy_before_release.2.2 ⟨true, true, demoOutputs, true, true,
      .ok, true, true, true, okWic⟩ demoArgv ⟨none, none⟩ (by decide)

/-- All thirteen WIC-ladder calls of the compositor encoder succeed. -/
def WicAllOk (w : WicOracle) : Prop :=
  FAILED w.coCreateHr = false ∧ FAILED w.createEncoderHr = false ∧
  FAILED w.createStreamHr = false ∧ FAILED w.initFromFilenameHr = false ∧
  FAILED w.encoderInitHr = false ∧ FAILED w.createNewFrameHr = false ∧
  FAILED w.frameInitHr = false ∧ FAILED w.setSizeHr = false ∧
  FAILED w.setPixelFormatHr = false ∧ FAILED w.writePixelsHr = false ∧
  FAILED w.frameCommitHr = false ∧ FAILED w.encoderCommitHr = false ∧
  FAILED w.moveFileHr = false

lemma wicEncodeToTemp_ok (w : WicOracle) (hok : WicAllOk w) (oW oH : Nat)
    (fs : FsState) :
    wicEncodeToTemp w oW oH fs = (S_OK, ⟨some (.complete oW oH), none⟩) := by
  obtain ⟨k1, k2, k3, k4, k5, k6, k7, k8, k9, k10, k11, k12, k13⟩ := hok
  unfold wicEncodeToTemp
  rw [if_neg (by simp [k1]), if_neg (by simp [k2]), if_neg (by simp [k3]),
      if_neg (by simp [k4])]
  dsimp only
  rw [if_neg (by simp [k5]), if_neg (by simp [k6]), if_neg (by simp [k7]),
      if_neg (by simp [k8]), if_neg (by simp [k9]), if_neg (by simp [k10]),
      if_neg (by simp [k11]), if_neg (by simp [k12]), if_neg (by simp [k13])]

/-- All the effectful platform calls of a window-capture invocation succeed. -/
def WgcEnvOk (env : WgcEnv) : Prop :=
  FAILED env.createD3DDeviceHr = false ∧ FAILED env.deviceBridgeHr = false ∧
  FAILED env.createForWindowHr = false ∧ 0 < env.sizeW ∧ 0 < env.sizeH ∧
  env.createEventOk = true ∧ env.frameArrives = true ∧ env.capturedNonNull = true ∧
  FAILED env.queryInterfaceHr = false ∧ FAILED env.getInterfaceHr = false ∧
  FAILED env.save.createStagingHr = false ∧ FAILED env.save.mapHr = false ∧
  WicAllOk env.save.wic

/-- C5: when client-area-only capture is requested but the client crop
rectangle cannot be obtained, the capture does not fail — it proceeds
uncropped, and an otherwise-healthy invocation still succeeds (S_OK) with the
encoded output dimensions equal to the full captured frame `descW × descH`. -/
theorem C5_client_crop_fallback (env : WgcEnv) (p : String) (fs : FsState)
    (hp : p ≠ "") (hok : WgcEnvOk env)
    (hclient : TryGetClientCropRect env.clientQuery env.descW env.descH = none) :
    (CaptureWindowToPngFileEx env false (some p) true fs).1 = S_OK ∧
    (CaptureWindowToPngFileEx env false (some p) true fs).2.2.dest =
      some (.complete env.descW env.descH) ∧
    (CaptureWindowToPngFileEx env false (some p) true fs).2.2.temp = none := by
  obtain ⟨e1, e2, e3, e4, e5, e6, e7, e8, e9, e10, e11, e12, ewic⟩ := hok
  unfold CaptureWindowToPngFileEx
  rw [if_neg (by simp)]
  rw [if_neg (by simp [e1])]
  rw [if_neg (by simp [e2])]
  rw [if_neg (by simp [e3])]
  rw [if_neg (by omega)]
  rw [if_neg (by simp [e6])]
  rw [if_neg (by simp [e7])]
  rw [if_neg (by simp [e8])]
  rw [if_neg (by simp [e9])]
  rw [if_neg (by simp [e10])]
  dsimp only
  rw [if_pos rfl]
  rw [hclient]
  unfold SavePngFromTexture
  rw [if_neg (by simp [hp])]
  rw [if_neg (by simp [e11])]
  rw [if_neg (by simp [e12])]
  dsimp only
  rw [wicEncodeToTemp_ok env.save.wic ewic]
  exact ⟨rfl, rfl, rfl⟩

/-- A window whose client rectangle cannot be queried (`GetClientRect`
fails). -/
def demoFailClientQuery : ClientQuery :=
  ⟨true, ⟨0, 0, 800, 600⟩, false, ⟨0, 0, 0, 0⟩, false, ⟨0, 0, 640, 480⟩, true, 10, 10⟩

/-- A healthy window-capture environment over an 800×600 frame whose client
rectangle is unavailable. -/
def demoWgcEnv : WgcEnv :=
  ⟨0, 0, 0, 800, 600, true, 5, true, true, 0, 0, 800, 600, demoFailClientQuery,
   ⟨0, 0, okWic⟩⟩

/-- Witness for C5: the concrete fallback run succeeds with full-frame
800×600 output. -/
theorem C5_client_crop_fallback_witness :
    (CaptureWindowToPngFileEx demoWgcEnv false (some "w.png") true
      ⟨none, none⟩).1 = S_OK ∧
    (CaptureWindowToPngFileEx demoWgcEnv false (some "w.png") true
      ⟨none, none⟩).2.2.dest = some (.complete 800 600) ∧
    (CaptureWindowToPngFileEx demoWgcEnv false (some "w.png") true
      ⟨none, none⟩).2.2.temp = none :=
  C5_client_crop_fallback demoWgcEnv "w.png" ⟨none, none⟩ (by decide)
    (by unfold WgcEnvOk WicAllOk; decide) (by decide)

/-- C6: in window mode no target enumeration ever occurs (the trace never
contains an enumeration event); a null window handle fails with E_INVALIDARG
before any event with the file system untouched, and a window whose capture
item reports a non-positive size fails with E_FAIL after item creation but
before the capture session is started or a frame is awaited, again leaving
the file system untouched. -/
theorem C6_window_mode_invalid_target :
    (∀ (env : WgcEnv) (path : Option String) (clientOnly : Bool) (fs : FsState),
      CaptureWindowToPngFileEx env true path clientOnly fs = (E_INVALIDARG, [], fs) ∧
      FAILED E_INVALIDARG = true)
  ∧ (∀ (env : WgcEnv) (p : String) (clientOnly : Bool) (fs : FsState),
      FAILED env.createD3DDeviceHr = false → FAILED env.deviceBridgeHr = false →
      FAILED env.createForWindowHr = false → (env.sizeW ≤ 0 ∨ env.sizeH ≤ 0) →
      CaptureWindowToPngFileEx env false (some p) clientOnly fs =
        (E_FAIL, [.createDevice, .deviceBridge, .createForWindow], fs) ∧
      FAILED E_FAIL = true ∧
      Ev.startCapture ∉ [Ev.createDevice, Ev.deviceBridge, Ev.createForWindow] ∧
      Ev.waitFrame 2000 ∉ [Ev.createDevice, Ev.deviceBridge, Ev.createForWindow])
  ∧ (∀ (env : WgcEnv) (hw : Bool) (p : Option String) (c : Bool) (fs : FsState),
      Ev.enumerateOutputs ∉ (CaptureWindowToPngFileEx env hw p c fs).2.1) := by
  refine ⟨?_, ?_, ?_⟩
  · intro env path clientOnly fs
    unfold CaptureWindowToPngFileEx
    rw [if_pos (Or.inl rfl)]
    exact ⟨rfl, by decide⟩
  · intro env p clientOnly fs h1 h2 h3 hsz
    unfold CaptureWindowToPngFileEx
    rw [if_neg (by simp)]
    rw [if_neg (by simp [h1])]
    rw [if_neg (by simp [h2])]
    rw [if_neg (by simp [h3])]
    rw [if_pos hsz]
    exact ⟨rfl, by decide, by decide, by decide⟩
  · intro env hw p c fs
    rcases CaptureWindow_shape env hw p c fs with ⟨h, hEq⟩ | ⟨h, hEq⟩ | ⟨h, hEq⟩ |
      ⟨h, hEq⟩ | ⟨h, hEq⟩ | ⟨h, hEq⟩ | ⟨h, hEq⟩ | ⟨h, hEq⟩ | ⟨h, h', hEq⟩ |
      ⟨h, h', hEq⟩ | ⟨h, hEq⟩
    all_goals rw [hEq]
    all_goals try (dsimp only; decide)
    dsimp only
    intro hmem
    rw [List.mem_append] at hmem
    rcases hmem with hmem | hmem
    · simp at hmem
    · rcases SavePngFromTexture_trace_events _ _ _ _ _ _ _ hmem with he | he | he <;>
        exact Ev.noConfusion he

/-- Window-capture environment whose capture item reports zero width. -/
def zeroSizeWgcEnv : WgcEnv :=
  ⟨0, 0, 0, 0, 600, true, 5, true, true, 0, 0, 800, 600, demoFailClientQuery,
   ⟨0, 0, okWic⟩⟩

/-- Witness for C6: a zero-sized capture item fails with E_FAIL before any
capture event, leaving the file system untouched. -/
theorem C6_window_mode_invalid_target_witness :
    CaptureWindowToPngFileEx zeroSizeWgcEnv false (some "w.png") false ⟨none, none⟩ =
      (E_FAIL, [Ev.createDevice, Ev.deviceBridge, Ev.createForWindow],
       ⟨none, none⟩) ∧
    FAILED E_FAIL = true ∧
    Ev.startCapture ∉ [Ev.createDevice, Ev.deviceBridge, Ev.createForWindow] ∧
    Ev.waitFrame 2000 ∉ [Ev.createDevice, Ev.deviceBridge, Ev.createForWindow] :=
  C6_window_mode_invalid_target.2.1 zeroSizeWgcEnv "w.png" false ⟨none, none⟩
    (by decide) (by decide) (by decide) (Or.inl (by decide))
